import Mathlib

/-!
# Shallow embedding of the shift-interval resolver (`src/timeLogic.ts`)

This file embeds the core logic of the SimpleShiftSelector panel: the
`getShiftTimeRange` function (the spec's `resolveShiftInterval`) and the
`isShiftActive` predicate, together with the data model they operate on.

Modelling choices:
* A dayjs timezone-aware moment is represented by a civil (wall-clock)
  date-time `CivilDateTime` in the business timezone; the operations the
  source performs on it (`.hour`, `.minute`, `.second`, `.millisecond`,
  `.add(_, 'day')`) are civil-field manipulations, which is dayjs's
  documented semantics for those calls.
* The timezone conversion facility (dayjs + IANA database) is abstracted as
  a `Timezone` record holding the two offset functions the code exercises:
  the offset used when interpreting a local wall-clock time (`dayjs.tz`)
  and the offset used when reading an absolute instant back as local time.
  A lookup environment `db : String → Option Timezone` stands for the IANA
  zone-name resolution; `none` models the "cannot resolve into a valid
  civil date" failure that the source detects via `isValid()`.
* JavaScript `Number(...)` string conversion is modelled on its decimal
  fragment (optional sign, digits, optional fractional part, empty string
  mapping to 0); `none` models `NaN`.  Machine floats are modelled exactly
  by rationals on this fragment.
* Epoch instants are `Int` milliseconds, as in the source.
-/

namespace ShiftPanel

/-- The `Shift` interface from `src/types.ts`: display name, `start`/`end`
times as `"HH:mm"` strings, and an optional day offset (absent modelled as
`0`, which JavaScript truthiness treats identically). -/
structure Shift where
  name : String
  start : String
  «end» : String
  dateOffset : Int := 0
deriving Repr, DecidableEq

/-- A civil (wall-clock) date-time: `day` counts civil days since
1970-01-01 in the business timezone, the remaining fields are the
time-of-day components dayjs exposes via `.hour()/.minute()/.second()/.millisecond()`. -/
structure CivilDateTime where
  day : Int
  hour : Int
  minute : Int
  second : Int
  ms : Int
deriving Repr, DecidableEq

/-- A timezone, abstracted to the two conversions the source code uses:
`offsetAtLocal` is the UTC offset (minutes east) attributed to a local
wall-clock time when a moment is CONSTRUCTED in the zone
(`dayjs.tz(...)`), and `offsetAtInstant` is the offset in effect at an
absolute UTC instant (used when reading an instant back as civil time in
the zone).  dayjs resolves `offsetAtLocal` once, at construction of the
base moment, and freezes it: subsequent field manipulation
(`.add`/`.hour`/`.minute`/…) never re-resolves the offset. -/
structure Timezone where
  offsetAtLocal : CivilDateTime → Int
  offsetAtInstant : Int → Int

/-- dayjs `.utc().valueOf()` on a timezone-aware moment: the wall-clock
fields minus the moment's FROZEN UTC offset `off` (the offset dayjs
resolved when the base moment was constructed; `.add(_, 'day')`,
`.hour()`, `.minute()` etc. rearrange the wall-clock fields but keep this
offset, so a `+1 day` wall-clock step is a fixed 24 real hours even
across a DST transition). -/
def fixedOffsetUtcMs (off : Int) (c : CivilDateTime) : Int :=
  (c.day * 1440 + c.hour * 60 + c.minute - off) * 60000
    + c.second * 1000 + c.ms

/-- Read a UTC epoch-millisecond instant as civil time in a timezone
(dayjs `dayjs.tz(instant, zone)` observation). -/
def civilOfInstant (z : Timezone) (t : Int) : CivilDateTime :=
  let loc := t + z.offsetAtInstant t * 60000
  { day := loc / 86400000
    hour := loc % 86400000 / 3600000
    minute := loc % 3600000 / 60000
    second := loc % 60000 / 1000
    ms := loc % 1000 }

/-- dayjs `.add(n, 'day')`: timezone-aware day arithmetic, i.e. the civil
day moves by `n` while the wall-clock time fields are preserved. -/
def addDaysCivil (n : Int) (c : CivilDateTime) : CivilDateTime :=
  { c with day := c.day + n }

/-- Split a character list at every occurrence of a separator character;
the result always has one more part than there are separators. -/
def splitOnChar (sep : Char) : List Char → List (List Char)
  | [] => [[]]
  | c :: cs =>
    if c = sep then [] :: splitOnChar sep cs
    else
      match splitOnChar sep cs with
      | h :: t => (c :: h) :: t
      | [] => [[c]]

/-- JavaScript `String.prototype.split` with a one-character separator and
no limit (`'a:b'.split(':') = ['a','b']`, `''.split(':') = ['']`). -/
def jsSplit (sep : Char) (s : String) : List String :=
  (splitOnChar sep s.data).map String.mk

/-- Digit characters to the natural number they denote (most significant
first). -/
def digitsToNat (s : List Char) : Nat :=
  s.foldl (fun a c => a * 10 + (c.toNat - 48)) 0

/-- All characters are decimal digits. -/
def allDigits (s : List Char) : Bool :=
  s.all (fun c => c.isDigit)

/-- An exact decimal number, denoting `mant / 10 ^ scale`: the result of
JavaScript `Number(...)` on a decimal numeral.  (On the decimal strings
this development feeds through `Number`, the double value is handled only
by sign/range comparisons against small integers and by truncation, so
the exact decimal represents it faithfully.) -/
structure JSDec where
  mant : Int
  scale : Nat
deriving Repr, DecidableEq

/-- The rational value denoted by an exact decimal. -/
def JSDec.toRat (d : JSDec) : ℚ :=
  (d.mant : ℚ) / (10 : ℚ) ^ d.scale

/-- `d < n` for an integer bound `n` (used by the validation range
checks). -/
def JSDec.ltInt (d : JSDec) (n : Int) : Bool :=
  d.mant < n * (10 : Int) ^ d.scale

/-- `n < d` for an integer bound `n` (used by the validation range
checks). -/
def JSDec.gtInt (d : JSDec) (n : Int) : Bool :=
  n * (10 : Int) ^ d.scale < d.mant

/-- JavaScript `Number(...)` string-to-number conversion, modelled on its
decimal fragment: the empty string converts to `0`; an optional sign
followed by digits, optionally with a `.` and fractional digits, converts
to the denoted decimal; anything else is `NaN`, modelled as `none`.
(Exotic forms — whitespace padding, hex, exponents, `Infinity` — are
outside the fragment and mapped to `none`.) -/
def jsNumber (s : String) : Option JSDec :=
  if s = "" then some ⟨0, 0⟩
  else
    let signBody : Int × List Char :=
      match s.data with
      | [] => (1, [])
      | c :: r =>
        if c = '-' then (-1, r)
        else if c = '+' then (1, r)
        else (1, c :: r)
    match jsSplit '.' (String.mk signBody.2) with
    | [ip] =>
      if allDigits ip.data ∧ ip ≠ "" then
        some ⟨signBody.1 * (digitsToNat ip.data : Int), 0⟩
      else none
    | [ip, fp] =>
      if allDigits ip.data ∧ allDigits fp.data ∧ (ip ≠ "" ∨ fp ≠ "") then
        some ⟨signBody.1 *
          ((digitsToNat ip.data : Int) * (10 : Int) ^ fp.length
            + (digitsToNat fp.data : Int)), fp.length⟩
      else none
    | _ => none

/-- ECMAScript `ToIntegerOrInfinity` on a finite number: truncation toward
zero.  This is what `Date.prototype.setHours`/`setMinutes` apply to their
arguments, hence what dayjs's `.hour()/.minute()` setters do with a
fractional value. -/
def jsTrunc (d : JSDec) : Int :=
  d.mant.tdiv ((10 : Int) ^ d.scale)

/-- Civil Gregorian date to days since 1970-01-01 (the standard
days-from-civil computation used by calendar libraries); linear in `d`,
so an out-of-range day-of-month rolls over arithmetically, exactly as
ECMAScript `MakeDay` does. -/
def daysFromCivil (y m d : Int) : Int :=
  let y2 := if m ≤ 2 then y - 1 else y
  let era := (if 0 ≤ y2 then y2 else y2 - 399).ediv 400
  let yoe := y2 - era * 400
  let mp := (m + 9) % 12
  let doy := (153 * mp + 2).ediv 5 + d - 1
  let doe := yoe * 365 + yoe.ediv 4 - yoe.ediv 100 + doy
  era * 146097 + doe - 719468

/-- ECMAScript `MakeDay` (the arithmetic behind `Date.UTC(y, m-1, d)`):
the civil day number for year/month/day, with out-of-range month and day
components rolling over arithmetically (`2025, 2, 30` → 2025-03-02;
`2025, 13, 1` → 2026-01-01; `2025, 0, 5` → 2024-12-05). -/
def rolloverDay (y m d : Int) : Int :=
  let mi := m - 1
  daysFromCivil (y + mi / 12) (mi % 12 + 1) d

/-- Parse one of the panel's date strings into a civil day number,
modelling the dayjs string parser on the date shapes the panel can feed
it (the date picker emits `YYYY-MM-DD`, spec §3): a four-digit year,
optionally followed by a hyphen and a 1–2-digit month, optionally
followed by a hyphen and a 0–2-digit day.  dayjs matches these with its
parse regex and builds the date via `Date.UTC`, which ROLLS out-of-range
components over arithmetically (`'2025-02-30'` → 2025-03-02) and is
`isValid()` for every such string; a missing or empty month/day
component defaults to January / the 1st.  Strings outside this
hyphen-separated digit shape do not match and become dayjs
`Invalid Date`, modelled as `none` (caught by the source's `isValid()`
check). -/
def parseYMD (s : String) : Option Int :=
  match jsSplit '-' s with
  | [y] =>
    if y.length = 4 ∧ allDigits y.data then
      some (rolloverDay (digitsToNat y.data) 1 1)
    else none
  | [y, m] =>
    if y.length = 4 ∧ allDigits y.data ∧ m.length ≤ 2 ∧ allDigits m.data then
      some (rolloverDay (digitsToNat y.data)
        (if m = "" then 1 else (digitsToNat m.data : Int)) 1)
    else none
  | [y, m, d] =>
    if y.length = 4 ∧ allDigits y.data ∧ m.length ≤ 2 ∧ allDigits m.data ∧
        d.length ≤ 2 ∧ allDigits d.data then
      some (rolloverDay (digitsToNat y.data)
        (if m = "" then 1 else (digitsToNat m.data : Int))
        (if d = "" then 1 else (digitsToNat d.data : Int)))
    else none
  | _ => none

/-- The spec's tagged error taxonomy for the resolver (§7); the source
throws `Error`s with the corresponding distinct messages. -/
inductive ShiftError where
  | invalidShift
  | invalidTimezone
  | invalidTimeFormat
  | invalidTimeValue
  | invalidHour
  | invalidMinute
deriving Repr, DecidableEq

/-- Embedding of `getShiftTimeRange` (`src/timeLogic.ts`, the spec's
`resolveShiftInterval`).  `db` is the timezone-resolution environment,
`nowMs` the current instant (`dayjs()` / `Date.now()`), used only when no
`selectedDate` is supplied.  Returns the `{from, to}` pair of UTC epoch
milliseconds or the thrown error. -/
def getShiftTimeRange (db : String → Option Timezone) (nowMs : Int)
    (shift : Shift) (tz : String) (selectedDate : Option String) :
    Except ShiftError (Int × Int) :=
  if shift.start = "" ∨ shift.«end» = "" then .error .invalidShift
  else if tz = "" then .error .invalidTimezone
  else
    match db tz with
    | none => .error .invalidTimezone
    | some z =>
      let base? : Option (Int × Int) :=
        match selectedDate with
        | some ds =>
          match parseYMD ds with
          | some pd => some (pd, z.offsetAtLocal ⟨pd, 0, 0, 0, 0⟩)
          | none => none
        | none => some ((civilOfInstant z nowMs).day, z.offsetAtInstant nowMs)
      match base? with
      | none => .error .invalidTimezone
      | some (d0, off) =>
        let d := if shift.dateOffset = 0 then d0 else d0 + shift.dateOffset
        match jsSplit ':' shift.start, jsSplit ':' shift.«end» with
        | [sH, sM], [eH, eM] =>
          match jsNumber sH, jsNumber sM, jsNumber eH, jsNumber eM with
          | some startHour, some startMin, some endHour, some endMin =>
            if startHour.ltInt 0 ∨ startHour.gtInt 23
                ∨ endHour.ltInt 0 ∨ endHour.gtInt 23 then
              .error .invalidHour
            else if startMin.ltInt 0 ∨ startMin.gtInt 59
                ∨ endMin.ltInt 0 ∨ endMin.gtInt 59 then
              .error .invalidMinute
            else
              let fromC : CivilDateTime :=
                ⟨d, jsTrunc startHour, jsTrunc startMin, 0, 0⟩
              let toC : CivilDateTime :=
                ⟨d, jsTrunc endHour, jsTrunc endMin, 0, 0⟩
              let fromMs := fixedOffsetUtcMs off fromC
              let toMs := fixedOffsetUtcMs off toC
              if toMs < fromMs then
                .ok (fromMs, fixedOffsetUtcMs off (addDaysCivil 1 toC))
              else
                .ok (fromMs, toMs)
          | _, _, _, _ => .error .invalidTimeValue
        | _, _ => .error .invalidTimeFormat

/-- Embedding of `isShiftActive` (`src/timeLogic.ts`): computes the range,
then — when a date is selected — compares the selected civil day with
today's civil day in the timezone before testing the inclusive interval
membership of the current instant. -/
def isShiftActive (db : String → Option Timezone) (nowMs : Int)
    (shift : Shift) (tz : String) (selectedDate : Option String) :
    Except ShiftError Bool :=
  match getShiftTimeRange db nowMs shift tz selectedDate with
  | .error e => .error e
  | .ok (f, t) =>
    match selectedDate with
    | some s =>
      match db tz, parseYMD s with
      | some z, some selDay =>
        if selDay = (civilOfInstant z nowMs).day then
          .ok (decide (f ≤ nowMs ∧ nowMs ≤ t))
        else .ok false
      | _, _ => .ok false
    | none => .ok (decide (f ≤ nowMs ∧ nowMs ≤ t))

/-- The UTC timezone: offset 0 everywhere. -/
def utcZone : Timezone :=
  { offsetAtLocal := fun _ => 0
    offsetAtInstant := fun _ => 0 }

/-- Europe/Warsaw for 2025 (IANA rules): CET (+60) until the spring
transition at 2025-03-30 02:00 local / 01:00 UTC, CEST (+120) until the
autumn transition at 2025-10-26 03:00 local / 01:00 UTC, CET afterwards. -/
def warsaw2025 : Timezone :=
  { offsetAtLocal := fun c =>
      let lm := c.day * 1440 + c.hour * 60 + c.minute
      if lm < daysFromCivil 2025 3 30 * 1440 + 120 then 60
      else if lm < daysFromCivil 2025 10 26 * 1440 + 180 then 120
      else 60
    offsetAtInstant := fun t =>
      if t < (daysFromCivil 2025 3 30 * 1440 + 60) * 60000 then 60
      else if t < (daysFromCivil 2025 10 26 * 1440 + 60) * 60000 then 120
      else 60 }

/-- The timezone-resolution environment used by the concrete scenarios:
the two IANA zones the spec's literal examples name. -/
def tzdb : String → Option Timezone := fun s =>
  if s = "UTC" then some utcZone
  else if s = "Europe/Warsaw" then some warsaw2025
  else none

/-- The civil date-time the resolver attaches to an anchor day from a
parsed hour and minute: seconds and milliseconds zeroed, the JS number
truncated as the `Date` setters do. -/
def shiftCivil (day : Int) (h m : JSDec) : CivilDateTime :=
  ⟨day, jsTrunc h, jsTrunc m, 0, 0⟩

/-- A string that splits into exactly two parts at `':'` is nonempty. -/
theorem jsSplit_pair_ne_empty {s x y : String}
    (h : jsSplit ':' s = [x, y]) : s ≠ "" := by
  intro hs
  rw [hs] at h
  have h2 : ([""] : List String) = [x, y] := h
  simp at h2

/-- The JS-truthiness day-offset update collapses to unconditional
addition. -/
theorem offset_if_eq (a d : Int) :
    (if d = 0 then a else a + d) = a + d := by
  split <;> omega

/-- Advancing the wall clock by one civil day under a frozen offset moves
the instant by exactly 24 real hours (86400000 ms) — this is the dayjs
`.add(1, 'day')` step as the source executes it. -/
theorem fixedOffsetUtcMs_addDay (off : Int) (c : CivilDateTime) :
    fixedOffsetUtcMs off (addDaysCivil 1 c) = fixedOffsetUtcMs off c + 86400000 := by
  simp only [fixedOffsetUtcMs, addDaysCivil]
  ring

/-- Unfolding of `getShiftTimeRange` on inputs that pass every validation
step: the result is the overnight-adjusted pair of instants built from
the parsed components under the offset frozen at the anchor midnight. -/
theorem getShiftTimeRange_valid
    (db : String → Option Timezone) (nowMs : Int) (s : Shift)
    (tz sel : String) (z : Timezone) (a : Int)
    (sH sM eH eM : String) (d1 d2 d3 d4 : JSDec)
    (htz : tz ≠ "")
    (hdb : db tz = some z) (hsel : parseYMD sel = some a)
    (hsp : jsSplit ':' s.start = [sH, sM])
    (hep : jsSplit ':' s.«end» = [eH, eM])
    (hn1 : jsNumber sH = some d1) (hn2 : jsNumber sM = some d2)
    (hn3 : jsNumber eH = some d3) (hn4 : jsNumber eM = some d4)
    (hh1 : d1.ltInt 0 = false) (hh1' : d1.gtInt 23 = false)
    (hh3 : d3.ltInt 0 = false) (hh3' : d3.gtInt 23 = false)
    (hm2 : d2.ltInt 0 = false) (hm2' : d2.gtInt 59 = false)
    (hm4 : d4.ltInt 0 = false) (hm4' : d4.gtInt 59 = false) :
    getShiftTimeRange db nowMs s tz (some sel) =
      (if fixedOffsetUtcMs (z.offsetAtLocal ⟨a, 0, 0, 0, 0⟩)
            (shiftCivil (a + s.dateOffset) d3 d4)
          < fixedOffsetUtcMs (z.offsetAtLocal ⟨a, 0, 0, 0, 0⟩)
            (shiftCivil (a + s.dateOffset) d1 d2) then
        .ok (fixedOffsetUtcMs (z.offsetAtLocal ⟨a, 0, 0, 0, 0⟩)
            (shiftCivil (a + s.dateOffset) d1 d2),
          fixedOffsetUtcMs (z.offsetAtLocal ⟨a, 0, 0, 0, 0⟩)
            (addDaysCivil 1 (shiftCivil (a + s.dateOffset) d3 d4)))
      else
        .ok (fixedOffsetUtcMs (z.offsetAtLocal ⟨a, 0, 0, 0, 0⟩)
            (shiftCivil (a + s.dateOffset) d1 d2),
          fixedOffsetUtcMs (z.offsetAtLocal ⟨a, 0, 0, 0, 0⟩)
            (shiftCivil (a + s.dateOffset) d3 d4))) := by
  have hst := jsSplit_pair_ne_empty hsp
  have hen := jsSplit_pair_ne_empty hep
  simp only [getShiftTimeRange, hst, hen, htz, hdb, hsel, hsp, hep,
    hn1, hn2, hn3, hn4, hh1, hh1', hh3, hh3', hm2, hm2', hm4, hm4',
    offset_if_eq, shiftCivil, or_self, if_false, Bool.false_eq_true,
    or_false, false_or, if_neg, not_false_eq_true, ite_false]

/-- A value that passed the code's `[0, n]` range check truncates into
`[0, n]`. -/
theorem jsTrunc_bounds (d : JSDec) (n : Int)
    (hlo : d.ltInt 0 = false) (hhi : d.gtInt n = false) :
    0 ≤ jsTrunc d ∧ jsTrunc d ≤ n := by
  have hp : (0 : Int) < 10 ^ d.scale := by positivity
  simp only [JSDec.ltInt, JSDec.gtInt, decide_eq_false_iff_not, not_lt,
    zero_mul] at hlo hhi
  refine ⟨Int.tdiv_nonneg hlo (le_of_lt hp), ?_⟩
  rw [jsTrunc, Int.tdiv_eq_ediv hlo (le_of_lt hp)]
  calc d.mant / (10 : Int) ^ d.scale
      ≤ n * (10 : Int) ^ d.scale / (10 : Int) ^ d.scale :=
        Int.ediv_le_ediv hp hhi
    _ = n := Int.mul_ediv_cancel _ (ne_of_gt hp)

/-- C10: the shift's `name` field is never read — two shift definitions
differing only in `name` yield identical results (value or error) from
`getShiftTimeRange` and from `isShiftActive`, for every timezone
environment, current instant, timezone string and selected date. -/
theorem name_never_read (db : String → Option Timezone) (nowMs : Int)
    (s : Shift) (n : String) (tz : String) (sel : Option String) :
    getShiftTimeRange db nowMs { s with name := n } tz sel
        = getShiftTimeRange db nowMs s tz sel ∧
    isShiftActive db nowMs { s with name := n } tz sel
        = isShiftActive db nowMs s tz sel :=
  ⟨rfl, rfl⟩

/-- C1 counterexample: two failures of the claim as stated.  (i) Equal
`start` and `end` (`08:00`/`08:00`, Europe/Warsaw, 2025-01-15): the code
returns a zero-length interval (`to = from`), not the 24-hour span the
claim asserts (`to` one calendar day — here 86400000 ms — after `from`).
(ii) The wrap is not timezone-aware day addition: `22:00`→`06:00`
anchored on 2025-03-29 (the Warsaw spring-forward night) gets a fixed
24-hour offset under the frozen CET offset, so `to` (2025-03-30 05:00
UTC) reads back as 07:00 local on day 20177 (2025-03-30), not the 06:00
wall-clock target the claim promises across a DST transition. -/
theorem overnight_equal_start_end_cex :
    getShiftTimeRange tzdb 0 ⟨"Equal", "08:00", "08:00", 0⟩ "Europe/Warsaw"
        (some "2025-01-15") = .ok (1736924400000, 1736924400000) ∧
    (Except.ok ((1736924400000 : Int), (1736924400000 : Int)) :
        Except ShiftError (Int × Int)) ≠
      .ok (1736924400000, 1736924400000 + 86400000) ∧
    getShiftTimeRange tzdb 0 ⟨"Night", "22:00", "06:00", 0⟩ "Europe/Warsaw"
        (some "2025-03-29") = .ok (1743282000000, 1743282000000 + 28800000) ∧
    civilOfInstant warsaw2025 (1743282000000 + 28800000) =
      ⟨20177, 7, 0, 0, 0⟩ ∧
    (⟨20177, 7, 0, 0, 0⟩ : CivilDateTime) ≠ ⟨20177, 6, 0, 0, 0⟩ := by
  refine ⟨rfl, fun h => ?_, rfl, rfl, by decide⟩
  simp only [Except.ok.injEq, Prod.mk.injEq] at h
  omega

/-- C1 (amended): the overnight wrap triggers only when `from` is
chronologically STRICTLY after `to` (`from.isAfter(to)` in the source),
and it adds a FIXED 24 hours (86400000 ms) to the end instant — the
`+1 day` is applied to the wall clock under the UTC offset frozen when
the anchor was constructed, so across a DST transition the end lands on
a drifted wall-clock time rather than the same wall-clock time next day;
when start and end coincide, the wrap does NOT trigger and the interval
is zero-length (`to = from`). -/
theorem overnight_strict_wrap
    (db : String → Option Timezone) (nowMs : Int) (s : Shift)
    (tz sel : String) (z : Timezone) (a : Int)
    (sH sM eH eM : String) (d1 d2 d3 d4 : JSDec)
    (htz : tz ≠ "")
    (hdb : db tz = some z) (hsel : parseYMD sel = some a)
    (hsp : jsSplit ':' s.start = [sH, sM])
    (hep : jsSplit ':' s.«end» = [eH, eM])
    (hn1 : jsNumber sH = some d1) (hn2 : jsNumber sM = some d2)
    (hn3 : jsNumber eH = some d3) (hn4 : jsNumber eM = some d4)
    (hh1 : d1.ltInt 0 = false) (hh1' : d1.gtInt 23 = false)
    (hh3 : d3.ltInt 0 = false) (hh3' : d3.gtInt 23 = false)
    (hm2 : d2.ltInt 0 = false) (hm2' : d2.gtInt 59 = false)
    (hm4 : d4.ltInt 0 = false) (hm4' : d4.gtInt 59 = false) :
    (jsTrunc d3 * 60 + jsTrunc d4 < jsTrunc d1 * 60 + jsTrunc d2 →
      getShiftTimeRange db nowMs s tz (some sel) =
        .ok (fixedOffsetUtcMs (z.offsetAtLocal ⟨a, 0, 0, 0, 0⟩)
            (shiftCivil (a + s.dateOffset) d1 d2),
          fixedOffsetUtcMs (z.offsetAtLocal ⟨a, 0, 0, 0, 0⟩)
            (shiftCivil (a + s.dateOffset) d3 d4) + 86400000)) ∧
    (jsTrunc d1 = jsTrunc d3 → jsTrunc d2 = jsTrunc d4 →
      getShiftTimeRange db nowMs s tz (some sel) =
        .ok (fixedOffsetUtcMs (z.offsetAtLocal ⟨a, 0, 0, 0, 0⟩)
            (shiftCivil (a + s.dateOffset) d1 d2),
          fixedOffsetUtcMs (z.offsetAtLocal ⟨a, 0, 0, 0, 0⟩)
            (shiftCivil (a + s.dateOffset) d1 d2))) := by
  have key := getShiftTimeRange_valid db nowMs s tz sel z a sH sM eH eM
    d1 d2 d3 d4 htz hdb hsel hsp hep hn1 hn2 hn3 hn4
    hh1 hh1' hh3 hh3' hm2 hm2' hm4 hm4'
  constructor
  · intro hlt
    have hcmp : fixedOffsetUtcMs (z.offsetAtLocal ⟨a, 0, 0, 0, 0⟩)
          (shiftCivil (a + s.dateOffset) d3 d4)
        < fixedOffsetUtcMs (z.offsetAtLocal ⟨a, 0, 0, 0, 0⟩)
          (shiftCivil (a + s.dateOffset) d1 d2) := by
      simp only [fixedOffsetUtcMs, shiftCivil]
      omega
    rw [key]
    simp only [if_pos hcmp, fixedOffsetUtcMs_addDay]
  · intro h13 h24
    have hceq : shiftCivil (a + s.dateOffset) d1 d2
        = shiftCivil (a + s.dateOffset) d3 d4 := by
      simp only [shiftCivil, h13, h24]
    rw [key, ← hceq, if_neg (lt_irrefl _)]

/-- Witness for C1: the overnight example from the spec, `22:00`→`06:00`
in Europe/Warsaw on 2025-01-15 (a transition-free night, so the fixed
24 hours coincide with the calendar day): local `from` is 2025-01-15
22:00 (day 20103) and local `to` is 2025-01-16 06:00 (day 20104). -/
theorem overnight_strict_wrap_witness :
    getShiftTimeRange tzdb 0 ⟨"Night", "22:00", "06:00", 0⟩ "Europe/Warsaw"
        (some "2025-01-15") = .ok (1736974800000, 1737003600000) ∧
    civilOfInstant warsaw2025 1736974800000 = ⟨20103, 22, 0, 0, 0⟩ ∧
    civilOfInstant warsaw2025 1737003600000 = ⟨20104, 6, 0, 0, 0⟩ := by
  refine ⟨?_, rfl, rfl⟩
  have h := (overnight_strict_wrap tzdb 0 ⟨"Night", "22:00", "06:00", 0⟩
    "Europe/Warsaw" "2025-01-15" warsaw2025 20103 "22" "00" "06" "00"
    ⟨22, 0⟩ ⟨0, 0⟩ ⟨6, 0⟩ ⟨0, 0⟩ (by decide) rfl rfl rfl rfl rfl rfl rfl rfl
    rfl rfl rfl rfl rfl rfl rfl rfl).1 (by decide)
  exact h.trans rfl

/-- C5 counterexample: a shift with equal `start` and `end` (accepted by
every validation step) returns `to = from`, violating the claim that `to`
is always strictly after `from`. -/
theorem to_strictly_after_from_cex :
    getShiftTimeRange tzdb 0 ⟨"Equal", "08:00", "08:00", 0⟩ "Europe/Warsaw"
        (some "2025-01-15") = .ok (1736924400000, 1736924400000) ∧
    ¬ ((1736924400000 : Int) < 1736924400000) :=
  ⟨rfl, by omega⟩

/-- C5 (amended): for every successful resolution, the returned interval
satisfies `from ≤ to`, and `to = from` exactly when the parsed start and
end wall-clock times coincide; strict `to > from` therefore holds except
in the equal-times case.  (Unconditional: both instants are computed
under the one offset frozen at the anchor, so the comparison is a pure
wall-clock comparison.) -/
theorem to_after_from
    (db : String → Option Timezone) (nowMs : Int) (s : Shift)
    (tz sel : String) (z : Timezone) (a : Int)
    (sH sM eH eM : String) (d1 d2 d3 d4 : JSDec) (f t : Int)
    (htz : tz ≠ "")
    (hdb : db tz = some z) (hsel : parseYMD sel = some a)
    (hsp : jsSplit ':' s.start = [sH, sM])
    (hep : jsSplit ':' s.«end» = [eH, eM])
    (hn1 : jsNumber sH = some d1) (hn2 : jsNumber sM = some d2)
    (hn3 : jsNumber eH = some d3) (hn4 : jsNumber eM = some d4)
    (hh1 : d1.ltInt 0 = false) (hh1' : d1.gtInt 23 = false)
    (hh3 : d3.ltInt 0 = false) (hh3' : d3.gtInt 23 = false)
    (hm2 : d2.ltInt 0 = false) (hm2' : d2.gtInt 59 = false)
    (hm4 : d4.ltInt 0 = false) (hm4' : d4.gtInt 59 = false)
    (hok : getShiftTimeRange db nowMs s tz (some sel) = .ok (f, t)) :
    f ≤ t ∧ (t = f ↔ (jsTrunc d1 = jsTrunc d3 ∧ jsTrunc d2 = jsTrunc d4)) := by
  have key := getShiftTimeRange_valid db nowMs s tz sel z a sH sM eH eM
    d1 d2 d3 d4 htz hdb hsel hsp hep hn1 hn2 hn3 hn4
    hh1 hh1' hh3 hh3' hm2 hm2' hm4 hm4'
  rw [key] at hok
  obtain ⟨hb1, hb1'⟩ := jsTrunc_bounds d1 23 hh1 hh1'
  obtain ⟨hb2, hb2'⟩ := jsTrunc_bounds d2 59 hm2 hm2'
  obtain ⟨hb3, hb3'⟩ := jsTrunc_bounds d3 23 hh3 hh3'
  obtain ⟨hb4, hb4'⟩ := jsTrunc_bounds d4 59 hm4 hm4'
  simp only [fixedOffsetUtcMs, shiftCivil, addDaysCivil] at hok
  split at hok <;>
    simp only [Except.ok.injEq, Prod.mk.injEq] at hok <;>
    obtain ⟨hf, ht⟩ := hok <;>
    constructor <;>
    omega

/-- Witness for C5: the overnight example `22:00`→`06:00` in
Europe/Warsaw on 2025-01-15 satisfies `from ≤ to`, and `to = from` is
equivalent to the (false) coincidence of the wall-clock endpoints. -/
theorem to_after_from_witness :
    (1736974800000 : Int) ≤ 1737003600000 ∧
    ((1737003600000 : Int) = 1736974800000 ↔
      (jsTrunc ⟨22, 0⟩ = jsTrunc ⟨6, 0⟩ ∧ jsTrunc ⟨0, 0⟩ = jsTrunc ⟨0, 0⟩)) :=
  to_after_from tzdb 0 ⟨"Night", "22:00", "06:00", 0⟩ "Europe/Warsaw"
    "2025-01-15" warsaw2025 20103 "22" "00" "06" "00"
    ⟨22, 0⟩ ⟨0, 0⟩ ⟨6, 0⟩ ⟨0, 0⟩ 1736974800000 1737003600000 (by decide)
    rfl rfl rfl rfl rfl rfl rfl rfl rfl rfl rfl rfl rfl rfl rfl rfl rfl

/-- C2: with a supplied `selectedDate`, `isShiftActive` returns `true`
exactly when the selected civil day equals today's civil day in the
timezone AND the current instant lies within `[from, to]` inclusive on
both ends; in particular it returns `false` whenever the selected civil
day differs from today, regardless of the interval. -/
theorem isShiftActive_gating
    (db : String → Option Timezone) (nowMs : Int) (s : Shift)
    (tz sel : String) (z : Timezone) (selDay f t : Int)
    (hdb : db tz = some z) (hsel : parseYMD sel = some selDay)
    (hok : getShiftTimeRange db nowMs s tz (some sel) = .ok (f, t)) :
    ((isShiftActive db nowMs s tz (some sel) = .ok true) ↔
      (selDay = (civilOfInstant z nowMs).day ∧ f ≤ nowMs ∧ nowMs ≤ t)) ∧
    (selDay ≠ (civilOfInstant z nowMs).day →
      isShiftActive db nowMs s tz (some sel) = .ok false) := by
  simp only [isShiftActive, hok, hdb, hsel]
  by_cases hday : selDay = (civilOfInstant z nowMs).day
  · simp [hday]
  · simp [hday]

/-- Witness for C2: an `08:00`–`16:00` UTC shift on 2025-01-15, observed
at 2025-01-15 08:00 UTC: the selected day is today's day (20103), the
instant is inside the interval, and the theorem's equivalence holds. -/
theorem isShiftActive_gating_witness :
    ((isShiftActive tzdb 1736928000000 ⟨"Morning", "08:00", "16:00", 0⟩
        "UTC" (some "2025-01-15") = .ok true) ↔
      ((20103 : Int) = (civilOfInstant utcZone 1736928000000).day ∧
        (1736928000000 : Int) ≤ 1736928000000 ∧
        (1736928000000 : Int) ≤ 1736956800000)) ∧
    ((20103 : Int) ≠ (civilOfInstant utcZone 1736928000000).day →
      isShiftActive tzdb 1736928000000 ⟨"Morning", "08:00", "16:00", 0⟩
        "UTC" (some "2025-01-15") = .ok false) :=
  isShiftActive_gating tzdb 1736928000000 ⟨"Morning", "08:00", "16:00", 0⟩
    "UTC" "2025-01-15" utcZone 20103 1736928000000 1736956800000
    rfl rfl rfl

/-- C4 counterexample: `dateOffset` is NOT equivalent to advancing the
selected date when the offset span crosses a DST transition, because the
zone offset stays frozen at the ORIGINAL anchor: `dateOffset = 180` from
2025-01-15 in Europe/Warsaw lands on the civil day of 2025-07-14
(`parseYMD "2025-07-14" = 20103 + 180`) but keeps the January CET offset,
yielding `from` = 07:00 UTC, while resolving 2025-07-14 directly uses
CEST and yields 06:00 UTC — the two calls differ by one hour. -/
theorem dateOffset_dst_cex :
    getShiftTimeRange tzdb 0 ⟨"Summer", "08:00", "16:00", 180⟩
        "Europe/Warsaw" (some "2025-01-15") =
      .ok (1752476400000, 1752505200000) ∧
    getShiftTimeRange tzdb 0 ⟨"Summer", "08:00", "16:00", 0⟩
        "Europe/Warsaw" (some "2025-07-14") =
      .ok (1752472800000, 1752501600000) ∧
    parseYMD "2025-07-14" = some (20103 + 180) ∧
    (1752476400000 : Int) ≠ 1752472800000 :=
  ⟨rfl, rfl, rfl, by omega⟩

/-- C4 (amended): `dateOffset` shifts only the anchor — resolving a shift
with `dateOffset = d` on `selectedDate` equals resolving the same shift
with no offset (`dateOffset = 0`) on the date `d` calendar days later —
WHENEVER the zone attributes the same offset to the two anchor midnights
(hypothesis `hfrozen`, e.g. no DST transition between them); the offset
is applied once, before `from` and `to` are computed.  When a transition
falls inside the offset span the two calls differ by the DST delta,
because the source keeps the offset frozen at the original anchor. -/
theorem dateOffset_shifts_anchor
    (db : String → Option Timezone) (nowMs : Int) (s : Shift)
    (tz sel selAdv : String) (z : Timezone) (d a : Int)
    (hdb : db tz = some z)
    (hsel : parseYMD sel = some a)
    (hselAdv : parseYMD selAdv = some (a + d))
    (hfrozen : z.offsetAtLocal ⟨a, 0, 0, 0, 0⟩
      = z.offsetAtLocal ⟨a + d, 0, 0, 0, 0⟩) :
    getShiftTimeRange db nowMs { s with dateOffset := d } tz (some sel) =
      getShiftTimeRange db nowMs { s with dateOffset := 0 } tz
        (some selAdv) := by
  simp only [getShiftTimeRange, hdb, hsel, hselAdv, hfrozen, offset_if_eq,
    add_zero, if_true, eq_self_iff_true]

/-- Witness for C4: the spec's example — `20:00`→`04:00` with
`dateOffset = -1` on 2025-01-15 in Europe/Warsaw (both anchor midnights
in CET) equals the offset-free shift on 2025-01-14 and yields local
`from` 2025-01-14 20:00 (day 20102) and local `to` 2025-01-15 04:00
(day 20103). -/
theorem dateOffset_shifts_anchor_witness :
    (getShiftTimeRange tzdb 0 ⟨"Prev", "20:00", "04:00", -1⟩ "Europe/Warsaw"
        (some "2025-01-15") =
      getShiftTimeRange tzdb 0 ⟨"Prev", "20:00", "04:00", 0⟩ "Europe/Warsaw"
        (some "2025-01-14")) ∧
    getShiftTimeRange tzdb 0 ⟨"Prev", "20:00", "04:00", -1⟩ "Europe/Warsaw"
        (some "2025-01-15") = .ok (1736881200000, 1736910000000) ∧
    civilOfInstant warsaw2025 1736881200000 = ⟨20102, 20, 0, 0, 0⟩ ∧
    civilOfInstant warsaw2025 1736910000000 = ⟨20103, 4, 0, 0, 0⟩ :=
  ⟨dateOffset_shifts_anchor tzdb 0 ⟨"Prev", "20:00", "04:00", 0⟩
      "Europe/Warsaw" "2025-01-15" "2025-01-14" warsaw2025 (-1) 20103
      rfl rfl rfl rfl,
    rfl, rfl, rfl⟩

/-- C6: once the shift, timezone and anchor date pass their checks and the
time strings split into two integer components, an hour outside `[0, 23]`
fails with the hour error, and — when both hours are in range — a minute
outside `[0, 59]` fails with the minute error. -/
theorem hour_minute_range_errors
    (db : String → Option Timezone) (nowMs : Int) (s : Shift)
    (tz sel : String) (z : Timezone) (a : Int)
    (sH sM eH eM : String) (n1 n2 n3 n4 : Int)
    (htz : tz ≠ "")
    (hdb : db tz = some z) (hsel : parseYMD sel = some a)
    (hsp : jsSplit ':' s.start = [sH, sM])
    (hep : jsSplit ':' s.«end» = [eH, eM])
    (hn1 : jsNumber sH = some ⟨n1, 0⟩) (hn2 : jsNumber sM = some ⟨n2, 0⟩)
    (hn3 : jsNumber eH = some ⟨n3, 0⟩) (hn4 : jsNumber eM = some ⟨n4, 0⟩) :
    (¬ (0 ≤ n1 ∧ n1 ≤ 23 ∧ 0 ≤ n3 ∧ n3 ≤ 23) →
      getShiftTimeRange db nowMs s tz (some sel) = .error .invalidHour) ∧
    ((0 ≤ n1 ∧ n1 ≤ 23 ∧ 0 ≤ n3 ∧ n3 ≤ 23) →
      ¬ (0 ≤ n2 ∧ n2 ≤ 59 ∧ 0 ≤ n4 ∧ n4 ≤ 59) →
      getShiftTimeRange db nowMs s tz (some sel) = .error .invalidMinute) := by
  have hst := jsSplit_pair_ne_empty hsp
  have hen := jsSplit_pair_ne_empty hep
  simp only [getShiftTimeRange, hst, hen, htz, hdb, hsel, hsp, hep,
    hn1, hn2, hn3, hn4, JSDec.ltInt, JSDec.gtInt, pow_zero, mul_one,
    decide_eq_true_eq, or_false, false_or, if_false]
  refine ⟨fun h => ?_, fun h h' => ?_⟩
  · split
    · rfl
    · omega
  · split
    · omega
    · split
      · rfl
      · omega

/-- Witness for C6: the spec's literal examples — start `25:00` throws the
hour error, start `08:60` throws the minute error. -/
theorem hour_minute_range_errors_witness :
    getShiftTimeRange tzdb 0 ⟨"BadHour", "25:00", "16:00", 0⟩ "UTC"
        (some "2025-01-15") = .error .invalidHour ∧
    getShiftTimeRange tzdb 0 ⟨"BadMin", "08:60", "16:00", 0⟩ "UTC"
        (some "2025-01-15") = .error .invalidMinute :=
  ⟨(hour_minute_range_errors tzdb 0 ⟨"BadHour", "25:00", "16:00", 0⟩
      "UTC" "2025-01-15" utcZone 20103 "25" "00" "16" "00" 25 0 16 0
      (by decide) rfl rfl rfl rfl rfl rfl rfl rfl).1 (by omega),
    (hour_minute_range_errors tzdb 0 ⟨"BadMin", "08:60", "16:00", 0⟩
      "UTC" "2025-01-15" utcZone 20103 "08" "60" "16" "00" 8 60 16 0
      (by decide) rfl rfl rfl rfl rfl rfl rfl rfl).2 (by omega) (by omega)⟩

/-- C8 counterexample: a fractional hour component — start `8.5:00` — is
NOT rejected with the time-value error: JavaScript `Number('8.5')` is the
(non-NaN, non-integer) number 8.5, so the `isNaN` check passes, the range
checks pass, and the call succeeds with the hour truncated to 8 (here the
2025-01-15 08:00–16:00 UTC interval). -/
theorem fractional_time_value_cex :
    getShiftTimeRange tzdb 0 ⟨"Frac", "8.5:00", "16:00", 0⟩ "UTC"
        (some "2025-01-15") = .ok (1736928000000, 1736956800000) ∧
    jsNumber "8.5" = some ⟨85, 1⟩ ∧ jsTrunc ⟨85, 1⟩ = 8 :=
  ⟨rfl, rfl, rfl⟩

/-- C8 (amended): the time-value error fires exactly when some `:`-split
component fails JavaScript numeric conversion altogether (`Number(...)`
gives `NaN`); components that parse as non-integer numbers (such as
`8.5`) are accepted and later truncated toward zero by the time setters. -/
theorem time_value_nan_error
    (db : String → Option Timezone) (nowMs : Int) (s : Shift)
    (tz sel : String) (z : Timezone) (a : Int)
    (sH sM eH eM : String)
    (htz : tz ≠ "")
    (hdb : db tz = some z) (hsel : parseYMD sel = some a)
    (hsp : jsSplit ':' s.start = [sH, sM])
    (hep : jsSplit ':' s.«end» = [eH, eM])
    (hnan : jsNumber sH = none ∨ jsNumber sM = none ∨
      jsNumber eH = none ∨ jsNumber eM = none) :
    getShiftTimeRange db nowMs s tz (some sel) =
      .error .invalidTimeValue := by
  have hst := jsSplit_pair_ne_empty hsp
  have hen := jsSplit_pair_ne_empty hep
  cases h1 : jsNumber sH <;> cases h2 : jsNumber sM <;>
    cases h3 : jsNumber eH <;> cases h4 : jsNumber eM <;>
    simp only [getShiftTimeRange, hst, hen, htz, hdb, hsel, hsp, hep,
      h1, h2, h3, h4, if_false] <;>
    simp_all

/-- Witness for C8: a non-numeric hour component (`8a:00`) fails JS
numeric conversion and throws the time-value error. -/
theorem time_value_nan_error_witness :
    getShiftTimeRange tzdb 0 ⟨"Bad", "8a:00", "16:00", 0⟩ "UTC"
        (some "2025-01-15") = .error .invalidTimeValue :=
  time_value_nan_error tzdb 0 ⟨"Bad", "8a:00", "16:00", 0⟩ "UTC"
    "2025-01-15" utcZone 20103 "8a" "00" "16" "00" (by decide)
    rfl rfl rfl rfl (Or.inl rfl)

end ShiftPanel
